import Mathlib

/-!
# Verification of the Farcaster Better-Auth plugin

Shallow embedding of the plugin's core logic and proofs about it:

* the verification-table nonce manager (`src/miniapp`: `VerificationTableNonceManager`),
  both as a sequential operation and as an interleaved two-caller system whose
  suspension points are the adapter `await`s;
* the core SIWF server endpoints (`verifySignature`, `link`) with their adapter
  effects recorded as an explicit call log;
* the client-side channel polling state machine of `useFarcasterSIWF`
  (tick = timeout check, status call, response processing), with the
  cancellation flag and interval bookkeeping made explicit.

Machine times are naturals (milliseconds); strings are Lean `String`s and the
JavaScript truthiness of `string | undefined` values is modelled explicitly.
-/

set_option maxRecDepth 8192

namespace FarcasterPlugin

/-! ## Nonce store: `VerificationTableNonceManager`

A record of the better-auth `verification` table, restricted to the fields the
nonce manager reads: the row `id`, the `identifier` and the `expiresAt` time.
-/

structure VerificationRecord where
  id : Nat
  identifier : String
  expiresAt : Nat
deriving DecidableEq, Repr

/-- The `verification` table, in insertion order (adapter `findOne` returns the
first match). -/
abbrev VerificationStore := List VerificationRecord

/-- `adapter.findOne({model: "verification", where: [{field: "identifier", value: nonce}]})`. -/
def findOneByIdentifier (ident : String) : VerificationStore → Option VerificationRecord
  | [] => none
  | r :: rs => if r.identifier = ident then some r else findOneByIdentifier ident rs

/-- `adapter.delete({model: "verification", where: [{field: "id", value: id}]})`. -/
def deleteById (i : Nat) (s : VerificationStore) : VerificationStore :=
  s.filter (fun r => r.id ≠ i)

/-- `listPrefixOf p l` is true when `p` is a prefix of `l` (char-level
`String.startsWith`). -/
def listPrefixOf : List Char → List Char → Bool
  | [], _ => true
  | _ :: _, [] => false
  | p :: ps, c :: cs => p = c && listPrefixOf ps cs

/-- `s.startsWith(p)` on the underlying character lists. -/
def strStartsWith (s p : String) : Bool :=
  listPrefixOf p.data s.data

/-- The identifier prefix the nonce manager uses: `farcaster-nonce:`. -/
def noncePrefix : String := "farcaster-nonce:"

/-- `nonceLifetimeMs = 10 * 60 * 1000` (10 minutes). -/
def nonceLifetimeMs : Nat := 10 * 60 * 1000

/-- `VerificationTableNonceManager.generate`: persist a fresh active record and
return its identifier.  The random cuid and the fresh row id are parameters. -/
def generate (nonceValue : String) (newId : Nat) (now : Nat) (s : VerificationStore) :
    String × VerificationStore :=
  let identifier := noncePrefix ++ nonceValue
  (identifier, s ++ [⟨newId, identifier, now + nonceLifetimeMs⟩])

/-- `VerificationTableNonceManager.consume`, run to completion with no
interleaving: reject identifiers without the `farcaster-nonce:` prefix, look the
record up, return `false` when absent, otherwise delete it by row id and return
`true` exactly when `now` is not past `expiresAt` (`new Date() > expiresAt`
yields the `false` branch).  Total: the boolean is the sole signal. -/
def consume (nonce : String) (now : Nat) (s : VerificationStore) :
    Bool × VerificationStore :=
  if ¬ strStartsWith nonce noncePrefix then (false, s)
  else
    match findOneByIdentifier nonce s with
    | none => (false, s)
    | some r =>
      let s' := deleteById r.id s
      if now > r.expiresAt then (false, s') else (true, s')

/-! ### Interleaved consumption

`consume` suspends at each adapter `await`.  The visible steps of one call are:
(1) prefix check plus `findOne`, retaining the looked-up record, and
(2) `delete` plus the expiry check, producing the boolean result.  Two callers
presenting the same identifier interleave these steps over the shared store. -/

/-- Program counter of one in-flight `consume` call. -/
inductive ConsumeTask where
  | ready
  | looked (r : VerificationRecord)
  | finished (result : Bool)
deriving DecidableEq, Repr

/-- One atomic step of an in-flight `consume nonce` call at time `now`. -/
def consumeStep (nonce : String) (now : Nat) :
    ConsumeTask → VerificationStore → ConsumeTask × VerificationStore
  | .ready, s =>
    if ¬ strStartsWith nonce noncePrefix then (.finished false, s)
    else
      match findOneByIdentifier nonce s with
      | none => (.finished false, s)
      | some r => (.looked r, s)
  | .looked r, s =>
    let s' := deleteById r.id s
    if now > r.expiresAt then (.finished false, s') else (.finished true, s')
  | .finished b, s => (.finished b, s)

/-- Two concurrent `consume` calls over the shared verification table. -/
structure TwoConsumers where
  store : VerificationStore
  first : ConsumeTask
  second : ConsumeTask
deriving DecidableEq, Repr

/-- Run one scheduler step: `true` advances the first caller, `false` the
second. -/
def twoStep (nonce : String) (now : Nat) (sys : TwoConsumers) (pickFirst : Bool) :
    TwoConsumers :=
  if pickFirst then
    let (t, s) := consumeStep nonce now sys.first sys.store
    { sys with first := t, store := s }
  else
    let (t, s) := consumeStep nonce now sys.second sys.store
    { sys with second := t, store := s }

/-- Run a whole schedule of interleaved steps. -/
def runSchedule (nonce : String) (now : Nat) (sys : TwoConsumers) :
    List Bool → TwoConsumers
  | [] => sys
  | b :: bs => runSchedule nonce now (twoStep nonce now sys b) bs

/-- The claim "consume(n) returns true at most once", read over concurrent
callers: under no interleaving do two calls with the same identifier both
return `true`. -/
def consumeAtMostOnceConcurrently : Prop :=
  ∀ (nonce : String) (now : Nat) (s : VerificationStore) (sched : List Bool),
    ¬ ((runSchedule nonce now ⟨s, .ready, .ready⟩ sched).first = .finished true ∧
       (runSchedule nonce now ⟨s, .ready, .ready⟩ sched).second = .finished true)

/-! ### Helper lemmas about the store operations -/

theorem findOneByIdentifier_eq_some {ident : String} {s : VerificationStore}
    {r : VerificationRecord} (h : findOneByIdentifier ident s = some r) :
    r ∈ s ∧ r.identifier = ident := by
  induction s with
  | nil => simp [findOneByIdentifier] at h
  | cons x xs ih =>
    unfold findOneByIdentifier at h
    split at h
    · cases h
      exact ⟨List.mem_cons_self _ _, by assumption⟩
    · rcases ih h with ⟨hm, hi⟩
      exact ⟨List.mem_cons_of_mem _ hm, hi⟩

theorem mem_deleteById {i : Nat} {s : VerificationStore} {r : VerificationRecord}
    (h : r ∈ deleteById i s) : r ∈ s ∧ r.id ≠ i := by
  unfold deleteById at h
  simpa using List.mem_filter.mp h

theorem two_le_length_of_two_mem {α : Type} {l : List α} {a b : α}
    (ha : a ∈ l) (hb : b ∈ l) (hne : a ≠ b) : 2 ≤ l.length := by
  cases l with
  | nil => cases ha
  | cons x xs =>
    rcases List.mem_cons.mp ha with rfl | ha'
    · rcases List.mem_cons.mp hb with rfl | hb'
      · exact absurd rfl hne
      · have := List.length_pos_of_mem hb'
        simp only [List.length_cons]
        omega
    · have := List.length_pos_of_mem ha'
      simp only [List.length_cons]
      omega

/-! ### C1 -/

/-- C1 (counterexample). The claim "`consume(n)` returns `true` at most once;
a second call with the same `n`, even immediately, returns `false`" fails for
overlapping callers: `consume` is `findOne`-then-`delete`, not an atomic
check-and-delete, so when two calls for `farcaster-nonce:a` both run their
`findOne` step before either deletes, both return `true` (double-spend).  The
refuting schedule interleaves the two calls step by step. -/
theorem C1_counterexample : ¬ consumeAtMostOnceConcurrently := by
  intro h
  exact h "farcaster-nonce:a" 0 [⟨1, "farcaster-nonce:a", 1000⟩]
    [true, false, true, false] ⟨by decide, by decide⟩

/-- C1 (amended). For sequential calls the claim holds: when the store holds at
most one record for identifier `n` and `consume n` returns `true`, any later
`consume n` on the resulting store returns `false` — the winning call deleted
the record, so the replay finds nothing. -/
theorem C1_sequential_consume_at_most_once (nonce : String) (now now' : Nat)
    (s : VerificationStore)
    (hone : (s.filter (fun r => r.identifier = nonce)).length ≤ 1)
    (h : (consume nonce now s).1 = true) :
    (consume nonce now' (consume nonce now s).2).1 = false := by
  by_cases hp : strStartsWith nonce noncePrefix
  · rcases hfind : findOneByIdentifier nonce s with _ | r
    · simp [consume, hp, hfind] at h
    · have hsnd : (consume nonce now s).2 = deleteById r.id s := by
        simp only [consume, hp, not_true_eq_false, if_false, hfind]
        split <;> rfl
      rw [hsnd]
      rcases hfind' : findOneByIdentifier nonce (deleteById r.id s) with _ | r'
      · simp [consume, hp, hfind']
      · exfalso
        rcases findOneByIdentifier_eq_some hfind' with ⟨hmem', hid'⟩
        rcases mem_deleteById hmem' with ⟨hmem's, hne_id⟩
        rcases findOneByIdentifier_eq_some hfind with ⟨hmem, hid⟩
        have hfr : r ∈ s.filter (fun r => r.identifier = nonce) :=
          List.mem_filter.mpr ⟨hmem, by simpa using hid⟩
        have hfr' : r' ∈ s.filter (fun r => r.identifier = nonce) :=
          List.mem_filter.mpr ⟨hmem's, by simpa using hid'⟩
        have hne : r ≠ r' := fun he => hne_id (by rw [he])
        have := two_le_length_of_two_mem hfr hfr' hne
        omega
  · simp [consume, hp] at h

/-- C1 (witness): a store with one unexpired nonce; the first consume returns
`true`, the immediate replay returns `false`. -/
theorem C1_witness :
    ((List.filter (fun r => r.identifier = "farcaster-nonce:a")
        [(⟨1, "farcaster-nonce:a", 1000⟩ : VerificationRecord)]).length ≤ 1) ∧
    (consume "farcaster-nonce:a" 0 [⟨1, "farcaster-nonce:a", 1000⟩]).1 = true ∧
    (consume "farcaster-nonce:a" 5
      (consume "farcaster-nonce:a" 0 [⟨1, "farcaster-nonce:a", 1000⟩]).2).1 = false :=
  ⟨by decide, by decide,
    C1_sequential_consume_at_most_once "farcaster-nonce:a" 0 5 _ (by decide) (by decide)⟩

/-! ### C2 -/

/-- The claimed specification of `consume`: for every identifier, absent
record means `(false, unchanged)`, and a present record is deleted
unconditionally with `true` returned exactly when `now ≤ expiresAt`. -/
def consumeClaimedSpec : Prop :=
  ∀ (ident : String) (now : Nat) (s : VerificationStore),
    match findOneByIdentifier ident s with
    | none => consume ident now s = (false, s)
    | some r =>
        (consume ident now s).2 = deleteById r.id s ∧
        ((consume ident now s).1 = true ↔ now ≤ r.expiresAt)

/-- C2 (counterexample). The claim overlooks the guard
`if (!nonce.startsWith('farcaster-nonce:')) return false`: for the identifier
`"x"` with a present, unexpired record, `consume` returns `false` and deletes
nothing, where the claim demands deletion and `true`. -/
theorem C2_counterexample : ¬ consumeClaimedSpec := by
  intro h
  have hx := h "x" 0 [⟨1, "x", 100⟩]
  rw [(by decide : findOneByIdentifier "x" [(⟨1, "x", 100⟩ : VerificationRecord)]
    = some ⟨1, "x", 100⟩)] at hx
  exact absurd hx (by decide)

/-- C2 (amended).  Full characterization of `consume`: identifiers without the
`farcaster-nonce:` prefix are rejected immediately with `false` and no lookup
or deletion; for prefixed identifiers, an absent record yields
`(false, unchanged)`, and a present record is deleted unconditionally (by row
id, whether or not expired) with `true` returned exactly when
`now ≤ expiresAt`.  `consume` is a total function: the boolean is the sole
signal, no exception path exists. -/
theorem C2_consume_characterization (ident : String) (now : Nat) (s : VerificationStore) :
    (strStartsWith ident noncePrefix = false → consume ident now s = (false, s)) ∧
    (strStartsWith ident noncePrefix = true →
      (findOneByIdentifier ident s = none → consume ident now s = (false, s)) ∧
      (∀ r, findOneByIdentifier ident s = some r →
        consume ident now s = (decide (now ≤ r.expiresAt), deleteById r.id s))) := by
  refine ⟨fun hp => by simp [consume, hp], fun hp => ⟨fun hn => by simp [consume, hp, hn], ?_⟩⟩
  intro r hr
  simp only [consume, hp, not_true_eq_false, if_false, hr]
  by_cases hexp : now > r.expiresAt
  · simp [hexp, Nat.not_le_of_lt hexp]
  · simp [hexp, Nat.le_of_not_lt hexp]

/-- C2 (witness): a prefixed identifier with a present but expired record is
deleted and the call returns `false` (`decide (2000 ≤ 1000) = false`). -/
theorem C2_witness :
    strStartsWith "farcaster-nonce:a" noncePrefix = true ∧
    findOneByIdentifier "farcaster-nonce:a" [⟨1, "farcaster-nonce:a", 1000⟩]
      = some (⟨1, "farcaster-nonce:a", 1000⟩ : VerificationRecord) ∧
    consume "farcaster-nonce:a" 2000 [⟨1, "farcaster-nonce:a", 1000⟩]
      = (decide ((2000 : Nat) ≤ 1000), deleteById 1 [⟨1, "farcaster-nonce:a", 1000⟩]) :=
  ⟨by decide, by decide,
    ((C2_consume_characterization "farcaster-nonce:a" 2000 _).2 (by decide)).2
      ⟨1, "farcaster-nonce:a", 1000⟩ (by decide)⟩

/-! ## Core SIWF server endpoints (`farcasterCoreAuth`)

The `verify-signature` and `link` handlers, embedded as pure functions over the
`user` table, with every adapter effect and the relay call recorded in an
explicit call log.  The relay's answer, the optional `resolveUserData` hook's
answer, the session-creation outcome and the id given to a created row are
inputs.  JavaScript truthiness of `string | undefined` values (`undefined` and
`""` are falsy) is modelled explicitly. -/

/-- Truthiness of a JavaScript `string | undefined` value. -/
def jsTruthy : Option String → Bool
  | none => false
  | some s => s ≠ ""

/-- JavaScript `a || b` where both sides are `string | undefined`. -/
def jsOrOpt (a b : Option String) : Option String :=
  if jsTruthy a then a else b

/-- JavaScript `a || lit` with a (nonempty) string literal fallback. -/
def jsOrDefault (a : Option String) (d : String) : String :=
  match a with
  | some s => if s = "" then d else s
  | none => d

/-- When `pat` is a prefix of `l`, the remainder of `l` past it. -/
def dropTag : List Char → List Char → Option (List Char)
  | [], l => some l
  | _ :: _, [] => none
  | p :: ps, c :: cs => if p = c then dropTag ps cs else none

/-- Longest initial run of non-newline characters (the greedy `[^\n]+`
capture). -/
def takeLine : List Char → List Char
  | [] => []
  | c :: cs => if c = '\n' then [] else c :: takeLine cs

/-- The literal the `extractNonceFromMessage` regex looks for. -/
def nonceTag : String := "Nonce: "

/-- `message.match(/Nonce: ([^\n]+)/)`: scan left to right for the first
position where `Nonce: ` is followed by at least one non-newline character and
return that captured line remainder; positions where `Nonce: ` is followed by
a newline or the end of input do not match (the capture needs one character)
and the scan continues. -/
def extractNonceList : List Char → List Char
  | [] => []
  | c :: cs =>
    match dropTag nonceTag.data (c :: cs) with
    | some (r :: rs) => if r = '\n' then extractNonceList cs else r :: takeLine rs
    | _ => extractNonceList cs

/-- `extractNonceFromMessage`: the captured `Nonce: ` line remainder, or the
empty string when the regex does not match. -/
def extractNonceFromMessage (message : String) : String :=
  ⟨extractNonceList message.data⟩

/-- Whether `pat` occurs as a contiguous substring of the list. -/
def occursSub (pat : List Char) : List Char → Bool
  | [] => (dropTag pat []).isSome
  | c :: cs => (dropTag pat (c :: cs)).isSome || occursSub pat cs

theorem extractNonceList_eq_nil {l : List Char}
    (h : occursSub nonceTag.data l = false) : extractNonceList l = [] := by
  induction l with
  | nil => rfl
  | cons c cs ih =>
    unfold occursSub at h
    rw [Bool.or_eq_false_iff] at h
    rcases h with ⟨h1, h2⟩
    unfold extractNonceList
    rcases hd : dropTag nonceTag.data (c :: cs) with _ | r
    · exact ih h2
    · rw [hd] at h1
      simp at h1

/-- A row of the host framework's `user` table, restricted to the fields the
plugin reads and writes. -/
structure UserRecord where
  id : String
  fid : Option Nat
  email : String
  name : String
  image : Option String
  emailVerified : Bool
deriving DecidableEq, Repr

/-- The `user` table, in insertion order. -/
abbrev UserStore := List UserRecord

/-- `adapter.findOne({model: "user", where: [{field: "fid", value: fid}]})`. -/
def findUserByFid (f : Nat) : UserStore → Option UserRecord
  | [] => none
  | u :: us => if u.fid = some f then some u else findUserByFid f us

/-- `adapter.findOne`/`update` result by row id. -/
def findUserById (uid : String) : UserStore → Option UserRecord
  | [] => none
  | u :: us => if u.id = uid then some u else findUserById uid us

/-- Adapter and relay calls a handler makes, in order. -/
inductive AdapterOp where
  | verifyCall (domain nonce : String)
  | findOne (model field : String)
  | update (model uid : String) (newName newImage : Option String)
      (newFid : Option (Option Nat))
  | create (model : String) (u : UserRecord)
  | createSession (uid : String)
  | setCookie
deriving DecidableEq, Repr

/-- The `APIError` statuses the handlers throw. -/
inductive ApiError where
  | unauthorized (message : String)
  | badRequest (message : String)
  | internalServerError (message : String)
deriving DecidableEq, Repr

/-- Handler result: the JSON success payload's user, or a thrown `APIError`. -/
inductive EndpointResult where
  | ok (u : UserRecord)
  | fail (e : ApiError)
deriving DecidableEq, Repr

/-- What `appClient.verifySignInMessage` came back with. -/
structure VerifyRelayResult where
  isError : Bool
  success : Bool
  fid : Nat
deriving DecidableEq, Repr

/-- What `options.resolveUserData(fid)` came back with. -/
structure ResolvedUserData where
  name : Option String
  email : Option String
  image : Option String
deriving DecidableEq, Repr

/-- The `verify-signature` request body (after zod validation). -/
structure SIWFVerifyBody where
  channelToken : String
  message : String
  signature : String
  fid : Nat
  username : Option String
  displayName : Option String
  pfpUrl : Option String
  bio : Option String
deriving DecidableEq, Repr

/-- Environment of one `verify-signature` request: the relay's verdict, the
resolver hook's answer (`none` when the option is not configured), whether
`internalAdapter.createSession` succeeds, and the id the adapter assigns to a
created row. -/
structure VerifySigEnv where
  relayResult : VerifyRelayResult
  resolveUserData : Option ResolvedUserData
  sessionOk : Bool
  newUserId : String
deriving DecidableEq, Repr

/-- Result of a handler run: response, `user` table afterwards, call log. -/
structure EndpointOutcome where
  result : EndpointResult
  store : UserStore
  calls : List AdapterOp
deriving DecidableEq, Repr

/-- `adapter.update({model: "user", where: [{field: "id", value: uid}],
update: updateData})` for the existing-user profile merge: write `name` when
the update carries one, `image` when the update carries one. -/
def applyProfileUpdate (uid : String) (newName newImage : Option String) :
    UserStore → UserStore :=
  List.map fun u =>
    if u.id = uid then
      { u with
        name := newName.getD u.name
        image := if newImage.isSome then newImage else u.image }
    else u

/-- The `verify-signature` handler after `verifySignInMessage` returned:
signature/FID checks, find-or-create reconciliation, session creation, cookie.
Returns the result, the `user` table afterwards and the calls made after the
relay call. -/
def verifySignatureRest (env : VerifySigEnv) (body : SIWFVerifyBody)
    (store : UserStore) : EndpointResult × UserStore × List AdapterOp :=
  let vr := env.relayResult
  if vr.isError || !vr.success then
    (.fail (.unauthorized "Invalid signature"), store, [])
  else if vr.fid ≠ body.fid then
    (.fail (.unauthorized "FID mismatch"), store, [])
  else
    let afterFind : UserRecord × UserStore × List AdapterOp :=
      match findUserByFid body.fid store with
      | some existingUser =>
        let newName := if jsTruthy body.displayName then body.displayName else none
        let newImage := if jsTruthy body.pfpUrl then body.pfpUrl else none
        if newName.isSome || newImage.isSome then
          (existingUser,
            applyProfileUpdate existingUser.id newName newImage store,
            [.findOne "user" "fid", .update "user" existingUser.id newName newImage none])
        else
          (existingUser, store, [.findOne "user" "fid"])
      | none =>
        let ad := env.resolveUserData.getD ⟨none, none, none⟩
        let newUser : UserRecord :=
          { id := env.newUserId
            fid := some body.fid
            email := jsOrDefault ad.email (Nat.repr body.fid ++ "@farcaster.local")
            name := jsOrDefault (jsOrOpt (jsOrOpt ad.name body.displayName) body.username)
              ("Farcaster User " ++ Nat.repr body.fid)
            image := jsOrOpt ad.image body.pfpUrl
            emailVerified := true }
        (newUser, store ++ [newUser], [.findOne "user" "fid", .create "user" newUser])
    let (user, store', calls) := afterFind
    if env.sessionOk then
      (.ok user, store', calls ++ [.createSession user.id, .setCookie])
    else
      (.fail (.internalServerError "Failed to create session"), store',
        calls ++ [.createSession user.id])

/-- The `verify-signature` endpoint: the relay is called first with the nonce
extracted from the client-supplied message, then the rest of the handler
runs. -/
def verifySignature (domain : String) (env : VerifySigEnv) (body : SIWFVerifyBody)
    (store : UserStore) : EndpointOutcome :=
  let (res, store', tail) := verifySignatureRest env body store
  ⟨res, store', .verifyCall domain (extractNonceFromMessage body.message) :: tail⟩

/-- The `link` request body (after zod validation). -/
structure LinkBody where
  channelToken : String
  message : String
  signature : String
  fid : Nat
deriving DecidableEq, Repr

/-- The `adapter.update` that writes the FID onto the session's user, and the
null-check on its result. -/
def linkUpdate (body : LinkBody) (sessionUserId : String) (store : UserStore) :
    EndpointResult × UserStore × List AdapterOp :=
  let store' := store.map fun u =>
    if u.id = sessionUserId then { u with fid := some body.fid } else u
  let calls := [AdapterOp.findOne "user" "fid",
    .update "user" sessionUserId none none (some (some body.fid))]
  match findUserById sessionUserId store' with
  | some updatedUser => (.ok updatedUser, store', calls)
  | none => (.fail (.internalServerError "Failed to update user"), store', calls)

/-- The `link` handler after `verifySignInMessage` returned: signature/FID
checks, the already-linked-to-another-user conflict check, then the FID
update. -/
def linkRest (vr : VerifyRelayResult) (body : LinkBody) (sessionUserId : String)
    (store : UserStore) : EndpointResult × UserStore × List AdapterOp :=
  if vr.isError || !vr.success then
    (.fail (.unauthorized "Invalid signature"), store, [])
  else if vr.fid ≠ body.fid then
    (.fail (.unauthorized "FID mismatch"), store, [])
  else
    match findUserByFid body.fid store with
    | some existingUser =>
      if existingUser.id ≠ sessionUserId then
        (.fail (.badRequest "This Farcaster account is already linked to another user"),
          store, [.findOne "user" "fid"])
      else
        linkUpdate body sessionUserId store
    | none => linkUpdate body sessionUserId store

/-- The `link` endpoint: relay call first (nonce extracted from the message),
then the rest of the handler. -/
def link (domain : String) (vr : VerifyRelayResult) (body : LinkBody)
    (sessionUserId : String) (store : UserStore) : EndpointOutcome :=
  let (res, store', tail) := linkRest vr body sessionUserId store
  ⟨res, store', .verifyCall domain (extractNonceFromMessage body.message) :: tail⟩

/-- Whether a call is an `adapter.update`. -/
def isUpdateOp : AdapterOp → Bool
  | .update _ _ _ _ _ => true
  | _ => false

/-- The users handed to `adapter.create` during a run, in order. -/
def createdUsers (o : EndpointOutcome) : List UserRecord :=
  o.calls.filterMap fun c =>
    match c with
    | .create _ u => some u
    | _ => none

/-- The `adapter.update` calls of a run, in order. -/
def updateCalls (o : EndpointOutcome) : List AdapterOp :=
  o.calls.filter isUpdateOp

/-- Whether a call touches the given adapter model. -/
def touchesModel (m : String) : AdapterOp → Bool
  | .findOne model _ => model = m
  | .update model _ _ _ _ => model = m
  | .create model _ => model = m
  | _ => false

/-- A call that never reads, writes or deletes the `verification` table (the
nonce store). -/
def avoidsNonceStore (c : AdapterOp) : Bool :=
  !(touchesModel "verification" c)

/-! ### C3 -/

/-- C3 (confirmed). When the relay verification succeeds but the FID it
returns differs from the client-claimed `body.fid`, `verify-signature` throws
`UNAUTHORIZED` with message `FID mismatch`, leaves the `user` table untouched,
and the only call made is the relay verification itself — in particular no
`adapter.create` and no `adapter.update` happen. -/
theorem C3_fid_mismatch_aborts (domain : String) (env : VerifySigEnv)
    (body : SIWFVerifyBody) (store : UserStore)
    (hne : env.relayResult.isError = false) (hs : env.relayResult.success = true)
    (hfid : env.relayResult.fid ≠ body.fid) :
    verifySignature domain env body store =
      ⟨.fail (.unauthorized "FID mismatch"), store,
        [.verifyCall domain (extractNonceFromMessage body.message)]⟩ := by
  simp [verifySignature, verifySignatureRest, hne, hs, hfid]

/-- C3 (witness): relay reports fid 42 while the body claimed 43. -/
theorem C3_witness :
    ((⟨⟨false, true, 42⟩, none, true, "u1"⟩ : VerifySigEnv).relayResult.fid ≠
      (⟨"tok", "m", "0xabc", 43, none, none, none, none⟩ : SIWFVerifyBody).fid) ∧
    verifySignature "example.com" ⟨⟨false, true, 42⟩, none, true, "u1"⟩
        ⟨"tok", "m", "0xabc", 43, none, none, none, none⟩ [] =
      ⟨.fail (.unauthorized "FID mismatch"), [], [.verifyCall "example.com" ""]⟩ :=
  ⟨by decide,
    C3_fid_mismatch_aborts "example.com" ⟨⟨false, true, 42⟩, none, true, "u1"⟩
      ⟨"tok", "m", "0xabc", 43, none, none, none, none⟩ [] rfl rfl (by decide)⟩

/-! ### C4 -/

/-- C4 (confirmed). A `link` request by session user `sessionUserId`
presenting a FID already bound to a different user `u1` fails with
`BAD_REQUEST` "already linked to another user", leaves the `user` table
untouched (both users' fid fields included), and makes only the relay call
and the `findOne` lookup — no `adapter.update` is issued. -/
theorem C4_link_conflict_rejected (domain : String) (vr : VerifyRelayResult)
    (body : LinkBody) (sessionUserId : String) (store : UserStore) (u1 : UserRecord)
    (hne : vr.isError = false) (hs : vr.success = true) (hfid : vr.fid = body.fid)
    (hfound : findUserByFid body.fid store = some u1)
    (hdiff : u1.id ≠ sessionUserId) :
    link domain vr body sessionUserId store =
      ⟨.fail (.badRequest "This Farcaster account is already linked to another user"),
        store,
        [.verifyCall domain (extractNonceFromMessage body.message),
          .findOne "user" "fid"]⟩ := by
  simp [link, linkRest, hne, hs, hfid, hfound, hdiff]

/-- C4 (witness): fid 7 is bound to `u1`; the session belongs to `u2`. -/
theorem C4_witness :
    findUserByFid 7 [(⟨"u1", some 7, "e", "n", none, true⟩ : UserRecord)]
      = some ⟨"u1", some 7, "e", "n", none, true⟩ ∧
    link "example.com" ⟨false, true, 7⟩ ⟨"tok", "m", "0xabc", 7⟩ "u2"
        [⟨"u1", some 7, "e", "n", none, true⟩] =
      ⟨.fail (.badRequest "This Farcaster account is already linked to another user"),
        [⟨"u1", some 7, "e", "n", none, true⟩],
        [.verifyCall "example.com" "", .findOne "user" "fid"]⟩ :=
  ⟨by decide,
    C4_link_conflict_rejected "example.com" ⟨false, true, 7⟩ ⟨"tok", "m", "0xabc", 7⟩
      "u2" [⟨"u1", some 7, "e", "n", none, true⟩] ⟨"u1", some 7, "e", "n", none, true⟩
      rfl rfl rfl (by decide) (by decide)⟩

/-! ### C5 -/

/-- Spec wording: the deterministic placeholder email `{fid}@farcaster.local`. -/
def placeholderEmail (fid : Nat) : String :=
  Nat.repr fid ++ "@farcaster.local"

/-- Spec wording: the supplied value when present and nonempty, else the
fallback. -/
def suppliedOr (v : Option String) (fallback : String) : String :=
  match v with
  | some s => if s = "" then fallback else s
  | none => fallback

/-- Spec wording for the created user's display name: the resolver's name if
supplied, else the profile `displayName`, else `username`, else the generated
`Farcaster User {fid}`. -/
def fallbackName (resolverName displayName username : Option String) (fid : Nat) :
    String :=
  suppliedOr resolverName
    (suppliedOr displayName
      (suppliedOr username ("Farcaster User " ++ Nat.repr fid)))

theorem jsOrDefault_eq_suppliedOr (a : Option String) (d : String) :
    jsOrDefault a d = suppliedOr a d := rfl

theorem jsOr_chain_eq_fallbackName (n d u : Option String) (fid : Nat) :
    suppliedOr (jsOrOpt (jsOrOpt n d) u) ("Farcaster User " ++ Nat.repr fid)
      = fallbackName n d u fid := by
  rcases n with _ | ns <;> rcases d with _ | ds <;> rcases u with _ | us <;>
    simp only [fallbackName, jsOrDefault, suppliedOr, jsOrOpt, jsTruthy] <;>
    split_ifs <;> simp_all

/-- Concrete environment for the C5 counterexample: the resolver hook supplies
an email. -/
def envC5 : VerifySigEnv :=
  ⟨⟨false, true, 7⟩, some ⟨none, some "custom@example.com", none⟩, true, "u1"⟩

/-- Concrete body for the C5 counterexample. -/
def bodyC5 : SIWFVerifyBody := ⟨"tok", "m", "0xabc", 7, none, none, none, none⟩

/-- C5 (counterexample). The claim says the created user's email is always the
placeholder `{fid}@farcaster.local`, but the code is
`email: additionalData.email || placeholder`: when the injected resolver
supplies an email, that email is stored instead.  Here fid 7 with the resolver
returning `custom@example.com` creates a user with that email, not
`7@farcaster.local`. -/
theorem C5_counterexample :
    (createdUsers (verifySignature "example.com" envC5 bodyC5 [])).map UserRecord.email
      = ["custom@example.com"] ∧
    ("custom@example.com" : String) ≠ "7@farcaster.local" := by
  exact ⟨by decide, by decide⟩

/-- C5 (amended). For a verification whose FID has no existing LocalUser,
exactly one user is created; its email is the resolver-supplied email when
present and nonempty, else the placeholder `{fid}@farcaster.local`; its name
is the resolver's name, else the profile displayName, else username, else
`Farcaster User {fid}`; its `emailVerified` flag is `true` and its `fid` is
the verified FID. -/
theorem C5_created_user_fields (domain : String) (env : VerifySigEnv)
    (body : SIWFVerifyBody) (store : UserStore)
    (hne : env.relayResult.isError = false) (hs : env.relayResult.success = true)
    (hfid : env.relayResult.fid = body.fid)
    (hnew : findUserByFid body.fid store = none) :
    createdUsers (verifySignature domain env body store) =
      [{ id := env.newUserId
         fid := some body.fid
         email := suppliedOr (env.resolveUserData.getD ⟨none, none, none⟩).email
           (placeholderEmail body.fid)
         name := fallbackName (env.resolveUserData.getD ⟨none, none, none⟩).name
           body.displayName body.username body.fid
         image := jsOrOpt (env.resolveUserData.getD ⟨none, none, none⟩).image body.pfpUrl
         emailVerified := true }] := by
  by_cases hso : env.sessionOk <;>
    simp [verifySignature, verifySignatureRest, createdUsers, hne, hs, hfid, hnew, hso,
      jsOrDefault_eq_suppliedOr, jsOr_chain_eq_fallbackName, placeholderEmail]

/-- C5 (witness): no resolver configured, empty profile: the placeholder email
and the generated name are used, `emailVerified = true`. -/
theorem C5_witness :
    createdUsers (verifySignature "example.com" ⟨⟨false, true, 7⟩, none, true, "u9"⟩
        ⟨"tok", "m", "0xabc", 7, none, none, none, none⟩ []) =
      [{ id := "u9", fid := some 7, email := "7@farcaster.local",
         name := "Farcaster User 7", image := none, emailVerified := true }] := by
  have h := C5_created_user_fields "example.com" ⟨⟨false, true, 7⟩, none, true, "u9"⟩
    ⟨"tok", "m", "0xabc", 7, none, none, none, none⟩ [] rfl rfl rfl rfl
  simpa [placeholderEmail, fallbackName, suppliedOr, jsOrOpt, jsTruthy] using h

/-! ### C6 -/

/-- The profile merge rewrites `name`/`image` only, so the fid column of the
`user` table is unchanged. -/
theorem applyProfileUpdate_fid (uid : String) (n i : Option String) (s : UserStore) :
    (applyProfileUpdate uid n i s).map UserRecord.fid = s.map UserRecord.fid := by
  induction s with
  | nil => rfl
  | cons u us ih =>
    simp only [applyProfileUpdate, List.map_cons] at ih ⊢
    rw [ih]
    congr 1
    split <;> rfl

theorem guard_isSome (a : Option String) :
    (if jsTruthy a then a else none).isSome = jsTruthy a := by
  rcases a with _ | s
  · rfl
  · by_cases h : s = "" <;> simp [jsTruthy, h]

theorem jsTruthy_isSome {a : Option String} (h : jsTruthy a = true) :
    a.isSome = true := by
  rcases a with _ | s <;> simp [jsTruthy] at h ⊢

/-- Concrete store user for the C6 counterexample: name already `Alice`. -/
def aliceC6 : UserRecord := ⟨"u1", some 7, "7@farcaster.local", "Alice", none, true⟩

/-- Concrete body for the C6 counterexample: candidate profile equal to the
stored one (`displayName = "Alice"`, no pfpUrl). -/
def bodyC6 : SIWFVerifyBody := ⟨"tok", "m", "0xabc", 7, none, some "Alice", none, none⟩

/-- C6 (counterexample). The claim says only fields that differ are written
and that no update is issued when the candidate profile equals the stored
values.  The code builds `updateData` from truthiness alone
(`if (displayName) updateData.name = displayName`), never comparing with the
stored row: here the candidate `displayName` equals the stored name (and both
images are absent), yet an `adapter.update` is still issued. -/
theorem C6_counterexample :
    aliceC6.name = "Alice" ∧ bodyC6.displayName = some "Alice" ∧
    bodyC6.pfpUrl = none ∧ aliceC6.image = none ∧
    updateCalls (verifySignature "example.com" ⟨⟨false, true, 7⟩, none, true, "ux"⟩
        bodyC6 [aliceC6])
      = [.update "user" "u1" (some "Alice") none none] := by
  exact ⟨rfl, rfl, rfl, rfl, by decide⟩

/-- C6 (amended). For a verification whose FID has an existing LocalUser, the
merge issues exactly one `adapter.update` writing `name` when the candidate
`displayName` is nonempty and `image` when the candidate `pfpUrl` is nonempty
— regardless of whether they differ from the stored values — and no update at
all when neither is supplied; no user is created, and no user's `fid` is
altered by the merge. -/
theorem C6_existing_user_merge (domain : String) (env : VerifySigEnv)
    (body : SIWFVerifyBody) (store : UserStore) (ex : UserRecord)
    (hne : env.relayResult.isError = false) (hs : env.relayResult.success = true)
    (hfid : env.relayResult.fid = body.fid)
    (hfound : findUserByFid body.fid store = some ex) :
    updateCalls (verifySignature domain env body store) =
      (if jsTruthy body.displayName || jsTruthy body.pfpUrl then
        [AdapterOp.update "user" ex.id
          (if jsTruthy body.displayName then body.displayName else none)
          (if jsTruthy body.pfpUrl then body.pfpUrl else none) none]
      else []) ∧
    createdUsers (verifySignature domain env body store) = [] ∧
    (verifySignature domain env body store).store.map UserRecord.fid
      = store.map UserRecord.fid := by
  by_cases hdn : jsTruthy body.displayName <;> by_cases hpf : jsTruthy body.pfpUrl <;>
    by_cases hso : env.sessionOk <;>
      simp [verifySignature, verifySignatureRest, updateCalls, createdUsers, isUpdateOp,
        hne, hs, hfid, hfound, hdn, hpf, hso, jsTruthy_isSome, applyProfileUpdate_fid]

/-- C6 (witness): existing user `u1` with stored name `Old`; candidate
displayName `Bob`, no pfpUrl: one update writing only the name, no create,
fid column unchanged. -/
theorem C6_witness :
    updateCalls (verifySignature "example.com" ⟨⟨false, true, 7⟩, none, true, "ux"⟩
        ⟨"tok", "m", "0xabc", 7, none, some "Bob", none, none⟩
        [⟨"u1", some 7, "e", "Old", none, true⟩])
      = [.update "user" "u1" (some "Bob") none none] ∧
    createdUsers (verifySignature "example.com" ⟨⟨false, true, 7⟩, none, true, "ux"⟩
        ⟨"tok", "m", "0xabc", 7, none, some "Bob", none, none⟩
        [⟨"u1", some 7, "e", "Old", none, true⟩]) = [] ∧
    (verifySignature "example.com" ⟨⟨false, true, 7⟩, none, true, "ux"⟩
        ⟨"tok", "m", "0xabc", 7, none, some "Bob", none, none⟩
        [⟨"u1", some 7, "e", "Old", none, true⟩]).store.map UserRecord.fid
      = [⟨"u1", some 7, "e", "Old", none, true⟩].map UserRecord.fid := by
  have h := C6_existing_user_merge "example.com" ⟨⟨false, true, 7⟩, none, true, "ux"⟩
    ⟨"tok", "m", "0xabc", 7, none, some "Bob", none, none⟩
    [⟨"u1", some 7, "e", "Old", none, true⟩] ⟨"u1", some 7, "e", "Old", none, true⟩
    rfl rfl rfl (by decide)
  simpa [jsTruthy] using h

/-! ### C10 -/

theorem linkUpdate_avoids (body : LinkBody) (sessionUserId : String)
    (store : UserStore) :
    ((linkUpdate body sessionUserId store).2.2).all avoidsNonceStore = true := by
  simp only [linkUpdate]
  split <;> rfl

theorem linkRest_avoids (vr : VerifyRelayResult) (body : LinkBody)
    (sessionUserId : String) (store : UserStore) :
    ((linkRest vr body sessionUserId store).2.2).all avoidsNonceStore = true := by
  simp only [linkRest]
  split
  · rfl
  · split
    · rfl
    · split
      · split
        · rfl
        · exact linkUpdate_avoids body sessionUserId store
      · exact linkUpdate_avoids body sessionUserId store

theorem verifySignatureRest_avoids (env : VerifySigEnv) (body : SIWFVerifyBody)
    (store : UserStore) :
    ((verifySignatureRest env body store).2.2).all avoidsNonceStore = true := by
  simp only [verifySignatureRest]
  split
  · rfl
  · split
    · rfl
    · repeat' split
      all_goals simp [avoidsNonceStore, touchesModel]

/-- C10 (confirmed). In both `verify-signature` and `link`, the nonce handed
to the relay's `verifySignInMessage` is `extractNonceFromMessage` of the
client-supplied message — matching the first `Nonce: ` line, the empty string
when no such line exists — and no call of either handler ever touches the
`verification` model: no server-side NonceRecord is read, consumed or deleted
in these flows. -/
theorem C10_nonce_from_message_only (domain : String) (env : VerifySigEnv)
    (body : SIWFVerifyBody) (vr : VerifyRelayResult) (lbody : LinkBody)
    (sessionUserId : String) (store store2 : UserStore) (m : String)
    (hno : occursSub nonceTag.data m.data = false) :
    (verifySignature domain env body store).calls.head? =
      some (.verifyCall domain (extractNonceFromMessage body.message)) ∧
    (link domain vr lbody sessionUserId store2).calls.head? =
      some (.verifyCall domain (extractNonceFromMessage lbody.message)) ∧
    (verifySignature domain env body store).calls.all avoidsNonceStore = true ∧
    (link domain vr lbody sessionUserId store2).calls.all avoidsNonceStore = true ∧
    extractNonceFromMessage m = "" := by
  refine ⟨?_, ?_, ?_, ?_, ?_⟩
  · rcases h : verifySignatureRest env body store with ⟨res, st', tail⟩
    simp [verifySignature, h]
  · rcases h : linkRest vr lbody sessionUserId store2 with ⟨res, st', tail⟩
    simp [link, h]
  · rcases h : verifySignatureRest env body store with ⟨res, st', tail⟩
    have htail := verifySignatureRest_avoids env body store
    rw [h] at htail
    simp only at htail
    simp only [verifySignature, h]
    simp [List.all_cons, avoidsNonceStore, touchesModel, htail]
  · rcases h : linkRest vr lbody sessionUserId store2 with ⟨res, st', tail⟩
    have htail := linkRest_avoids vr lbody sessionUserId store2
    rw [h] at htail
    simp only at htail
    simp only [link, h]
    simp [List.all_cons, avoidsNonceStore, touchesModel, htail]
  · have h := extractNonceList_eq_nil hno
    show (⟨extractNonceList m.data⟩ : String) = ""
    rw [h]

/-- C10 (witness): concrete requests; the message `"hello"` has no nonce line
and extracts to the empty string. -/
theorem C10_witness :
    (verifySignature "example.com" ⟨⟨false, true, 7⟩, none, true, "u1"⟩
        ⟨"tok", "m", "0xabc", 7, none, none, none, none⟩ []).calls.head? =
      some (.verifyCall "example.com" (extractNonceFromMessage "m")) ∧
    (link "example.com" ⟨false, true, 7⟩ ⟨"tok", "m2", "0xabc", 7⟩ "u2" []).calls.head? =
      some (.verifyCall "example.com" (extractNonceFromMessage "m2")) ∧
    (verifySignature "example.com" ⟨⟨false, true, 7⟩, none, true, "u1"⟩
        ⟨"tok", "m", "0xabc", 7, none, none, none, none⟩ []).calls.all avoidsNonceStore = true ∧
    (link "example.com" ⟨false, true, 7⟩ ⟨"tok", "m2", "0xabc", 7⟩ "u2" []).calls.all
      avoidsNonceStore = true ∧
    extractNonceFromMessage "hello" = "" :=
  C10_nonce_from_message_only "example.com" ⟨⟨false, true, 7⟩, none, true, "u1"⟩
    ⟨"tok", "m", "0xabc", 7, none, none, none, none⟩ ⟨false, true, 7⟩
    ⟨"tok", "m2", "0xabc", 7⟩ "u2" [] [] "hello" (by decide)

/-! ## Client-side channel polling state machine (`useFarcasterSIWF`)

The hook state is embedded as a record: the React state cells, the refs
(`cancelledRef`, `pollStartTime`, `pollingRef`) and a counter of live
`setInterval` timers (a `setInterval` increments it; `clearInterval` through
`stopPolling` decrements it; overwriting `pollingRef.current` without clearing
leaks the old timer, visible as `intervals` staying high).  A poll tick is
split at its `await` boundary: `tickPre` is the part before the
`channelStatus` request is issued (the cancelled check and the timeout check),
`tickPost` is the processing of the response (including the verify call on a
completed status).  Times are milliseconds; `Date.now()` is the `now`
argument. -/

/-- `FarcasterCoreAuthError` codes reachable in the polling loop.  The
`verifyResponse.error` throw carries `INVALID_SIGNATURE`, and
`FarcasterCoreAuthError.from(err, 'POLLING_FAILED')` returns a
`FarcasterCoreAuthError` unchanged, so that path surfaces as
`invalidSignature`; `pollingFailed` would only arise from a foreign
exception. -/
inductive ErrCode where
  | channelTimeout
  | channelExpired
  | invalidSignature
  | pollingFailed
  | networkError
deriving DecidableEq, Repr

/-- The state of one `useFarcasterSIWF` instance. -/
structure HookState where
  user : Option String := none
  session : Option String := none
  channelUrl : Option String := none
  channelToken : Option String := none
  error : Option ErrCode := none
  isPolling : Bool := false
  isVerifying : Bool := false
  isCreatingChannel : Bool := false
  cancelled : Bool := false
  pollStart : Option Nat := none
  refHeld : Bool := false
  intervals : Nat := 0
deriving DecidableEq, Repr

/-- `stopPolling`: clear the interval held by `pollingRef` (when any), null the
ref and the start time, stop the polling flag. -/
def stopPolling (st : HookState) : HookState :=
  if st.refHeld then
    { st with
      refHeld := false
      intervals := st.intervals - 1
      pollStart := none
      isPolling := false }
  else
    { st with pollStart := none, isPolling := false }

/-- `cancel()`: set `cancelledRef`, stop polling, clear channel url/token and
the error. -/
def cancel (st : HookState) : HookState :=
  let st1 := stopPolling { st with cancelled := true }
  { st1 with channelUrl := none, channelToken := none, error := none }

/-- Channel state as reported by `channel-status`. -/
inductive ChannelState where
  | pending
  | completed
deriving DecidableEq, Repr

/-- One `channelStatus` response: an error payload (with or without
`'expired'` in its message), or data. -/
inductive StatusResponse where
  | error (messageHasExpired : Bool)
  | ok (state : ChannelState) (message signature : Option String) (fid : Option Nat)
      (username displayName pfpUrl bio : Option String)
deriving DecidableEq, Repr

/-- One `verifySignature` response: an error payload, or data carrying the
user and session. -/
structure VerifyResponse where
  isError : Bool
  user : String
  session : String
deriving DecidableEq, Repr

/-- Network calls the hook makes. -/
inductive NetCall where
  | getSessionCall
  | createChannelCall
  | channelStatus (token : String)
  | verifySignatureCall (token message signature : String) (fid : Nat)
deriving DecidableEq, Repr

/-- JS truthiness of the `fid` field (`number | undefined`; `0` is falsy). -/
def fidTruthy : Option Nat → Bool
  | none => false
  | some n => n ≠ 0

/-- Start of a poll tick, before any network call: if `cancelledRef` is set,
stop polling and end the tick; if the start time is truthy and
`now - pollStartTime > pollTimeout`, stop polling, report `CHANNEL_TIMEOUT`
and clear the channel url/token; otherwise proceed to the `channelStatus`
request (second component `true`). -/
def tickPre (pollTimeout : Nat) (st : HookState) (now : Nat) : HookState × Bool :=
  if st.cancelled then (stopPolling st, false)
  else if (match st.pollStart with
           | some t => decide (t ≠ 0) && decide (now - t > pollTimeout)
           | none => false) then
    let st1 := stopPolling st
    ({ st1 with
       error := some .channelTimeout
       channelUrl := none
       channelToken := none }, false)
  else (st, true)

/-- Processing of a `channelStatus` response.  An error payload whose message
mentions `expired` stops polling with `CHANNEL_EXPIRED`; any other error
payload is ignored (the tick just returns).  A `completed` status with truthy
`message`, `signature` and `fid` stops polling, issues the `verifySignature`
call and — with no further cancellation check — either reports the error or
sets `user`/`session` and clears the channel url/token.  Anything else leaves
the state unchanged. -/
def tickPost (tok : String) (vresp : VerifyResponse) (st : HookState)
    (resp : StatusResponse) : HookState × List NetCall :=
  match resp with
  | .error messageHasExpired =>
    if messageHasExpired then
      let st1 := stopPolling st
      ({ st1 with
         error := some .channelExpired
         channelUrl := none
         channelToken := none }, [])
    else (st, [])
  | .ok state msg sig fid _ _ _ _ =>
    if decide (state = ChannelState.completed) && jsTruthy msg && jsTruthy sig
        && fidTruthy fid then
      let st1 := { stopPolling st with isVerifying := true }
      let vcall := NetCall.verifySignatureCall tok (msg.getD "") (sig.getD "") (fid.getD 0)
      if vresp.isError then
        let st2 := stopPolling st1
        ({ st2 with
           error := some .invalidSignature
           channelUrl := none
           channelToken := none
           isVerifying := false }, [vcall])
      else
        ({ st1 with
           user := some vresp.user
           session := some vresp.session
           channelUrl := none
           channelToken := none
           isVerifying := false }, [vcall])
    else (st, [])

/-- One whole poll tick with no interleaved event: `tickPre`, then, when it
proceeds, the `channelStatus` call and `tickPost` on its response. -/
def fullTick (pollTimeout : Nat) (tok : String) (resp : StatusResponse)
    (vresp : VerifyResponse) (st : HookState) (now : Nat) : HookState × List NetCall :=
  let (st1, proceed) := tickPre pollTimeout st now
  if proceed then
    let (st2, calls) := tickPost tok vresp st1 resp
    (st2, NetCall.channelStatus tok :: calls)
  else (st1, [])

/-- Hook state right after a successful channel creation at time `T`:
url/token set, polling, `pollStartTime = T`, one live interval held by the
ref. -/
def freshPollState (url tok : String) (T : Nat) : HookState :=
  { channelUrl := some url
    channelToken := some tok
    isPolling := true
    pollStart := some T
    refHeld := true
    intervals := 1 }

/-- Run `n` interval ticks after a poll started at time `T`: `setInterval`
fires tick `k` at wall-clock time `T + interval * (k+1)`, with response
streams `resp`/`vresp`.  Returns the final state and all network calls. -/
def runPolling (pollTimeout interval T : Nat) (tok : String)
    (resp : Nat → StatusResponse) (vresp : Nat → VerifyResponse)
    (st : HookState) : Nat → HookState × List NetCall
  | 0 => (st, [])
  | k + 1 =>
    let (st', calls) := runPolling pollTimeout interval T tok resp vresp st k
    let (st'', newCalls) :=
      fullTick pollTimeout tok (resp k) (vresp k) st' (T + interval * (k + 1))
    (st'', calls ++ newCalls)

/-- A response that neither reports channel expiry nor completes the flow:
an error payload without `expired`, a pending status, or a completed status
missing one of message/signature/fid. -/
def nonTerminalResp : StatusResponse → Bool
  | .error messageHasExpired => !messageHasExpired
  | .ok state msg sig fid _ _ _ _ =>
    !(decide (state = ChannelState.completed) && jsTruthy msg && jsTruthy sig
      && fidTruthy fid)

/-- What `createChannel` observes from outside: the pre-flight `getSession`
answer (`some` when the response has data with a session) and the
`createChannel` endpoint answer (`none` for an error or missing data). -/
structure ChannelData where
  channelToken : String
  url : String
  nonce : String
deriving DecidableEq, Repr

structure CreateChannelEnv where
  sessionData : Option (String × String)
  channelResp : Option ChannelData
deriving DecidableEq, Repr

/-- The `createChannel` action: return early when the local state is already
authenticated; otherwise reset error/cancelled, check the server session
(adopting it when found), then create a channel and — on success — set
url/token and start a new interval, overwriting `pollingRef` without clearing
any interval it previously held. -/
def createChannelOp (env : CreateChannelEnv) (st : HookState) (now : Nat) :
    HookState × List NetCall × Option ChannelData :=
  if st.user.isSome && st.session.isSome then (st, [], none)
  else
    let st1 := { st with isCreatingChannel := true, error := none, cancelled := false }
    match env.sessionData with
    | some (u, s) =>
      ({ st1 with user := some u, session := some s, isCreatingChannel := false },
        [.getSessionCall], none)
    | none =>
      match env.channelResp with
      | none =>
        ({ st1 with error := some .networkError, isCreatingChannel := false },
          [.getSessionCall, .createChannelCall], none)
      | some cd =>
        ({ st1 with
           channelUrl := some cd.url
           channelToken := some cd.channelToken
           isPolling := true
           pollStart := some now
           refHeld := true
           intervals := st1.intervals + 1
           isCreatingChannel := false },
          [.getSessionCall, .createChannelCall], some cd)

/-! ### C7 -/

theorem tickPost_nonTerminal (tok : String) (vresp : VerifyResponse) (st : HookState)
    (resp : StatusResponse) (h : nonTerminalResp resp = true) :
    tickPost tok vresp st resp = (st, []) := by
  cases resp with
  | error he =>
    simp only [nonTerminalResp, Bool.not_eq_true'] at h
    simp [tickPost, h]
  | ok state msg sig fid a b c d =>
    simp only [nonTerminalResp, Bool.not_eq_true'] at h
    simp [tickPost, h]

theorem fullTick_nonTerminal (pollTimeout : Nat) (tok : String) (resp : StatusResponse)
    (vresp : VerifyResponse) (st : HookState) (now : Nat)
    (hc : st.cancelled = false)
    (ht : (match st.pollStart with
           | some t => decide (t ≠ 0) && decide (now - t > pollTimeout)
           | none => false) = false)
    (h : nonTerminalResp resp = true) :
    fullTick pollTimeout tok resp vresp st now = (st, [NetCall.channelStatus tok]) := by
  have hcn : ¬ (st.cancelled = true) := by simp [hc]
  have htn : ¬ ((match st.pollStart with
      | some t => decide (t ≠ 0) && decide (now - t > pollTimeout)
      | none => false) = true) := by
    rw [ht]
    simp
  have h1 : tickPre pollTimeout st now = (st, true) := by
    rw [tickPre, if_neg hcn, if_neg htn]
  simp [fullTick, h1, tickPost_nonTerminal tok vresp st resp h]

/-- While the tick times stay within the timeout window and every response is
non-terminal, the machine stays in the fresh polling state and issues exactly
one `channelStatus` call per tick. -/
theorem runPolling_pending (pollTimeout interval T : Nat) (url tok : String)
    (resp : Nat → StatusResponse) (vresp : Nat → VerifyResponse)
    (hnt : ∀ k, nonTerminalResp (resp k) = true) (n : Nat)
    (hn : interval * n ≤ pollTimeout) :
    runPolling pollTimeout interval T tok resp vresp (freshPollState url tok T) n
      = (freshPollState url tok T, List.replicate n (NetCall.channelStatus tok)) := by
  induction n with
  | zero => rfl
  | succ k ih =>
    have hk : interval * k ≤ pollTimeout :=
      le_trans (Nat.mul_le_mul_left _ (Nat.le_succ k)) hn
    have hcond : (match (freshPollState url tok T).pollStart with
        | some t => decide (t ≠ 0) && decide ((T + interval * (k + 1)) - t > pollTimeout)
        | none => false) = false := by
      simp only [freshPollState]
      simp
      exact fun _ => hn
    simp only [runPolling]
    rw [ih hk]
    simp only [fullTick_nonTerminal pollTimeout tok (resp k) (vresp k)
      (freshPollState url tok T) (T + interval * (k + 1)) rfl hcond (hnt k)]
    simp [List.replicate_succ']

/-- C7 (confirmed). Tick `k` of the `setInterval` loop fires at wall-clock
time `T + interval * (k+1)`, `T` being the start timestamp recorded at channel
creation.  With every response non-terminal (pending, or an error without
`expired` — in particular no completed status ever), the machine is still
polling after `K = pollTimeout / interval` ticks, and the next tick — the
first whose wall-clock time exceeds `T + pollTimeout` — transitions to the
timed-out state reporting `CHANNEL_TIMEOUT` without issuing another status
call: the transition happens at `T + interval * (K+1)`, which lies in
`(T + pollTimeout, T + pollTimeout + interval]` — within one tick interval of
`T + pollTimeout` — and depends only on the wall clock, not on the number of
pending responses received.  No `verifySignatureCall` ever appears. -/
theorem C7_poll_times_out (pollTimeout interval T : Nat) (url tok : String)
    (resp : Nat → StatusResponse) (vresp : Nat → VerifyResponse)
    (hi : 0 < interval) (hT : 0 < T)
    (hnt : ∀ k, nonTerminalResp (resp k) = true) :
    runPolling pollTimeout interval T tok resp vresp (freshPollState url tok T)
        (pollTimeout / interval) =
      (freshPollState url tok T,
        List.replicate (pollTimeout / interval) (NetCall.channelStatus tok)) ∧
    runPolling pollTimeout interval T tok resp vresp (freshPollState url tok T)
        (pollTimeout / interval + 1) =
      ({ error := some ErrCode.channelTimeout },
        List.replicate (pollTimeout / interval) (NetCall.channelStatus tok)) ∧
    pollTimeout < interval * (pollTimeout / interval + 1) ∧
    interval * (pollTimeout / interval + 1) ≤ pollTimeout + interval := by
  have hK : interval * (pollTimeout / interval) ≤ pollTimeout := by
    calc interval * (pollTimeout / interval)
        = (pollTimeout / interval) * interval := Nat.mul_comm _ _
      _ ≤ pollTimeout := Nat.div_mul_le_self _ _
  have hrunK := runPolling_pending pollTimeout interval T url tok resp vresp hnt
    (pollTimeout / interval) hK
  have hlt : pollTimeout < interval * (pollTimeout / interval + 1) := by
    have h1 := Nat.div_add_mod pollTimeout interval
    have h2 := Nat.mod_lt pollTimeout hi
    calc pollTimeout
        = interval * (pollTimeout / interval) + pollTimeout % interval := h1.symm
      _ < interval * (pollTimeout / interval) + interval := by omega
      _ = interval * (pollTimeout / interval + 1) := by ring
  refine ⟨hrunK, ?_, hlt, ?_⟩
  · have hT' : T ≠ 0 := Nat.pos_iff_ne_zero.mp hT
    have harg : T + interval * (pollTimeout / interval + 1) - T
        = interval * (pollTimeout / interval + 1) :=
      Nat.add_sub_cancel_left T (interval * (pollTimeout / interval + 1))
    simp only [runPolling]
    rw [hrunK]
    simp [fullTick, tickPre, freshPollState, stopPolling, harg, hlt, hT']
  · calc interval * (pollTimeout / interval + 1)
        = interval * (pollTimeout / interval) + interval := by ring
      _ ≤ pollTimeout + interval := by omega

/-- A status stream that reports `pending` on every tick. -/
def pendingStream : Nat → StatusResponse :=
  fun _ => .ok .pending none none none none none none none

/-- A verify stream that would succeed (never reached while pending). -/
def okVerifyStream : Nat → VerifyResponse := fun _ => ⟨false, "u", "s"⟩

/-- C7 (witness): timeout 5, interval 2, start 1: still polling after
`5 / 2 = 2` ticks, timed out on the third tick at time `1 + 2*3 = 7`, with
`5 < 2*3 ≤ 5 + 2`. -/
theorem C7_witness :
    runPolling 5 2 1 "tok" pendingStream okVerifyStream
        (freshPollState "url" "tok" 1) (5 / 2) =
      (freshPollState "url" "tok" 1,
        List.replicate (5 / 2) (NetCall.channelStatus "tok")) ∧
    runPolling 5 2 1 "tok" pendingStream okVerifyStream
        (freshPollState "url" "tok" 1) (5 / 2 + 1) =
      ({ error := some ErrCode.channelTimeout },
        List.replicate (5 / 2) (NetCall.channelStatus "tok")) ∧
    5 < 2 * (5 / 2 + 1) ∧
    2 * (5 / 2 + 1) ≤ 5 + 2 :=
  C7_poll_times_out 5 2 1 "url" "tok" pendingStream okVerifyStream
    (by decide) (by decide) (fun _ => rfl)

/-! ### C8 -/

/-- The claim: once `cancel()` has run, the result of a status check that was
already in flight is discarded — processing it makes no further network call
(in particular no verify-signature) and never sets authenticated state. -/
def cancelDiscardsInFlight : Prop :=
  ∀ (pollTimeout : Nat) (tok : String) (st : HookState) (now : Nat)
    (resp : StatusResponse) (vresp : VerifyResponse),
    st.user = none →
    (tickPre pollTimeout st now).2 = true →
    (tickPost tok vresp (cancel (tickPre pollTimeout st now).1) resp).2 = [] ∧
    (tickPost tok vresp (cancel (tickPre pollTimeout st now).1) resp).1.user = none

/-- C8 (counterexample). The cancelled flag is only checked at the start of a
tick; the code after `await channelStatus(...)` never re-checks it.  A tick
that passes `tickPre` and issues its status call, followed by `cancel()`,
followed by a `completed` response, still invokes verify-signature and sets
`user`/`session` — authenticated state after cancellation. -/
theorem C8_counterexample : ¬ cancelDiscardsInFlight := by
  intro h
  have hx := h 300000 "tok" (freshPollState "url" "tok" 100) 101
    (.ok .completed (some "msg") (some "0xsig") (some 42) none none none none)
    ⟨false, "user42", "sess42"⟩ rfl (by decide)
  exact absurd hx (by decide)

/-- C8 (amended). `cancel()` immediately clears the interval and stops the
polling flags, and any tick that starts after cancellation observes
`cancelledRef` at its first step, stops polling and makes no network call.
However, a status check already in flight when `cancel()` runs is processed
normally when it resolves: a completed status still triggers the
verify-signature call and sets authenticated state. -/
theorem C8_cancel_gates_next_tick (pollTimeout : Nat) (tok : String)
    (resp : StatusResponse) (vresp : VerifyResponse) (st : HookState) (now : Nat)
    (hc : st.cancelled = true) :
    tickPre pollTimeout st now = (stopPolling st, false) ∧
    fullTick pollTimeout tok resp vresp st now = (stopPolling st, []) ∧
    (cancel st).refHeld = false ∧
    (cancel st).isPolling = false ∧
    (cancel st).cancelled = true := by
  have h1 : tickPre pollTimeout st now = (stopPolling st, false) := by
    simp [tickPre, hc]
  refine ⟨h1, by simp [fullTick, h1], ?_, ?_, ?_⟩ <;>
    · simp only [cancel, stopPolling]
      split <;> simp_all

/-- C8 (witness): a cancelled polling state; the next tick stops silently
with no calls, and `cancel` has cleared the interval. -/
theorem C8_witness :
    tickPre 300000 (cancel (freshPollState "url" "tok" 100)) 200 =
      (stopPolling (cancel (freshPollState "url" "tok" 100)), false) ∧
    fullTick 300000 "tok" (.ok .pending none none none none none none none)
        ⟨false, "u", "s"⟩ (cancel (freshPollState "url" "tok" 100)) 200 =
      (stopPolling (cancel (freshPollState "url" "tok" 100)), []) ∧
    (cancel (cancel (freshPollState "url" "tok" 100))).refHeld = false ∧
    (cancel (cancel (freshPollState "url" "tok" 100))).isPolling = false ∧
    (cancel (cancel (freshPollState "url" "tok" 100))).cancelled = true :=
  C8_cancel_gates_next_tick 300000 "tok"
    (.ok .pending none none none none none none none) ⟨false, "u", "s"⟩
    (cancel (freshPollState "url" "tok" 100)) 200 (by decide)

/-! ### C9 -/

/-- The claim: at most one channel/poll is active per instance — invoking
`createChannel` while a poll is active neither returns fresh channel data nor
starts another interval, because an idle-gate rejects the start. -/
def singleActivePollGate : Prop :=
  ∀ (env : CreateChannelEnv) (st : HookState) (now : Nat),
    st.isPolling = true →
    (createChannelOp env st now).2.2 = none ∧
    (createChannelOp env st now).1.intervals = st.intervals

/-- C9 (counterexample). There is no idle/polling gate: `createChannel` only
short-circuits when the local state is already authenticated
(`if (user && session) return null`).  Invoked while an unauthenticated poll
is active, it creates a second channel and runs a second `setInterval`,
overwriting `pollingRef` so the first interval is never cleared (the live
interval count goes from 1 to 2). -/
theorem C9_counterexample : ¬ singleActivePollGate := by
  intro h
  have hx := h ⟨none, some ⟨"tok2", "url2", "n2"⟩⟩ (freshPollState "url" "tok" 50) 60 rfl
  exact absurd hx (by decide)

/-- C9 (amended). `createChannel` is gated only on authentication: when the
local `user` and `session` are both set it returns `null` with no calls and
no state change.  Otherwise — even while a previous poll is active — with no
server session and a successful channel creation it returns fresh channel
data, makes the `getSession` and `createChannel` calls, and starts a new
interval without clearing the previous one (`intervals` increments), with the
ref now holding the new interval and polling restarted from `now`. -/
theorem C9_create_channel_gate (env : CreateChannelEnv) (st : HookState) (now : Nat)
    (cd : ChannelData) :
    ((st.user.isSome && st.session.isSome) = true →
      createChannelOp env st now = (st, [], none)) ∧
    ((st.user.isSome && st.session.isSome) = false → env.sessionData = none →
      env.channelResp = some cd →
      (createChannelOp env st now).2.1 = [.getSessionCall, .createChannelCall] ∧
      (createChannelOp env st now).2.2 = some cd ∧
      (createChannelOp env st now).1.intervals = st.intervals + 1 ∧
      (createChannelOp env st now).1.refHeld = true ∧
      (createChannelOp env st now).1.isPolling = true ∧
      (createChannelOp env st now).1.pollStart = some now) := by
  constructor
  · intro hauth
    simp [createChannelOp, hauth]
  · intro hnauth hsess hch
    simp [createChannelOp, hnauth, hsess, hch]

/-- C9 (witness): the authenticated gate returns early with no calls; an
unauthenticated start while a poll is active increments the live interval
count. -/
theorem C9_witness :
    createChannelOp ⟨none, some ⟨"t", "u", "n"⟩⟩
        { user := some "a", session := some "b" } 5 =
      ({ user := some "a", session := some "b" }, [], none) ∧
    (createChannelOp ⟨none, some ⟨"t", "u", "n"⟩⟩
        (freshPollState "url" "tok" 50) 60).1.intervals =
      (freshPollState "url" "tok" 50).intervals + 1 :=
  ⟨(C9_create_channel_gate ⟨none, some ⟨"t", "u", "n"⟩⟩
      { user := some "a", session := some "b" } 5 ⟨"t", "u", "n"⟩).1 rfl,
    ((C9_create_channel_gate ⟨none, some ⟨"t", "u", "n"⟩⟩
      (freshPollState "url" "tok" 50) 60 ⟨"t", "u", "n"⟩).2 rfl rfl rfl).2.2.1⟩

end FarcasterPlugin
